import Mathlib

set_option autoImplicit false

/-!
# goawsweb: login, audit log and dashboard handlers

A shallow embedding of `main.go`.  The handlers of the program act on three
pieces of the outside world:

* the PostgreSQL database behind the global handle `db` (tables `users` and
  `logs`), modelled by `DB`;
* the standard logger of package `log`, modelled by the list of lines it has
  printed (`World.stderr`);
* the template files read by `template.ParseFiles`, modelled by `Files`.

A handler `func(w http.ResponseWriter, r *http.Request)` becomes a function
`Files → World → Request → World × List Reply`: it maps the world before the
request to the world after it, together with the calls it made on the
response writer, in order.
-/

namespace GoAwsWeb

/-! ## Data model -/

/-- The Go struct `User`. -/
structure User where
  Username : String
  Password : String
deriving DecidableEq

/-- The Go struct `LogEntry`, used here as the shape of a row of table `logs`
(columns `username`, `status`, `timestamp`, `hostname`, `ip_address`).  The
surrogate key `id SERIAL` is the position of the row in the table and is not
stored.  `Timestamp` is the database clock reading, a natural number. -/
structure LogEntry where
  Username : String
  Status : String
  Timestamp : Nat
  Hostname : String
  IPAddress : String
deriving DecidableEq

/-- A row of table `users`: `username VARCHAR(50) PRIMARY KEY` and
`password VARCHAR(50)`, the latter without `NOT NULL`, hence optional. -/
structure UsersRow where
  username : String
  password : Option String
deriving DecidableEq

/-- Errors returned by `database/sql`.  `ErrNoRows` is `sql.ErrNoRows`; every
other error (driver, connection, server, scan) carries its message. -/
inductive SqlError where
  | ErrNoRows
  | other (msg : String)
deriving DecidableEq

/-- The method `Error()` of an error value. -/
def SqlError.Error : SqlError → String
  | .ErrNoRows => "sql: no rows in result set"
  | .other msg => msg

/-- The database behind the global `db`.  `queryFault` and `execFault` say
whether the server currently fails a `SELECT` on `users`, respectively an
`INSERT` into `logs` (unreachable server, missing table or privilege, rejected
value), and with which message; `now` is `CURRENT_TIMESTAMP`. -/
structure DB where
  users : List UsersRow
  logs : List LogEntry
  now : Nat
  queryFault : Option String
  execFault : Option String
deriving DecidableEq

/-- Everything a handler can change: the database and the lines printed by
package `log`. -/
structure World where
  db : DB
  stderr : List String
deriving DecidableEq

/-- A parsed template: executing it on the data writes some text to the
response and may end in an error. -/
structure Template where
  Execute : Option String → String × Option String

/-- The result of `template.ParseFiles` for each file name. -/
abbrev Files := String → Except String Template

/-- The fields of `*http.Request` the handlers read.  `Form` lists the parsed
form values in order. -/
structure Request where
  Method : String
  Form : List (String × String)
  Host : String
  RemoteAddr : String
deriving DecidableEq

/-- The method `r.FormValue(key)`: the first value for the key, or the empty
string when the key is absent. -/
def Request.FormValue (r : Request) (key : String) : String :=
  match r.Form.find? (fun kv => kv.1 == key) with
  | some kv => kv.2
  | none => ""

/-- A call on the `http.ResponseWriter`: `http.Error(w, msg, code)` (which
sends the message, followed by a newline, as plain text with that status),
`http.Redirect(w, r, url, code)`, or text written by a template. -/
inductive Reply where
  | Error (msg : String) (code : Nat)
  | Redirect (url : String) (code : Nat)
  | Write (body : String)
deriving DecidableEq

/-- The constant `http.StatusFound`. -/
def StatusFound : Nat := 302

/-- The constant `http.StatusUnauthorized`. -/
def StatusUnauthorized : Nat := 401

/-- The constant `http.StatusInternalServerError`. -/
def StatusInternalServerError : Nat := 500

/-! ## Database operations used by the program -/

/-- The call `db.QueryRow("SELECT * FROM users WHERE username = $1", username)`
followed by `row.Scan(&user.Username, &user.Password)`: a server fault is
returned as it is, no matching row gives `sql.ErrNoRows`, a `NULL` password
cannot be scanned into a string. -/
def DB.QueryRowScan (db : DB) (username : String) : Except SqlError User :=
  match db.queryFault with
  | some msg => .error (.other msg)
  | none =>
    match db.users.find? (fun row => row.username == username) with
    | none => .error .ErrNoRows
    | some row =>
      match row.password with
      | none => .error (.other
          "sql: Scan error on column index 1, name \"password\": converting NULL to string is unsupported")
      | some p => .ok { Username := row.username, Password := p }

/-- The call `db.Exec("INSERT INTO logs (username, status, hostname,
ip_address) VALUES ($1, $2, $3, $4)", ...)`: on a fault the table is left as
it is; otherwise one row is appended, whose `timestamp` column takes its
default `CURRENT_TIMESTAMP`. -/
def DB.ExecInsertLog (db : DB) (username status hostname ipAddress : String) :
    Except SqlError DB :=
  match db.execFault with
  | some msg => .error (.other msg)
  | none => .ok { db with logs := db.logs ++
      [{ Username := username, Status := status, Timestamp := db.now,
         Hostname := hostname, IPAddress := ipAddress }] }

/-! ## The functions of `main.go` -/

/-- The function `getUser`. -/
def getUser (s : World) (username : String) : Except SqlError User :=
  match s.db.QueryRowScan username with
  | .error err => .error err
  | .ok user => .ok user

/-- The function `logEntry`: one `INSERT`; a failure is printed with
`log.Println("Failed to insert log entry:", err)` and otherwise ignored. -/
def logEntry (s : World) (username status hostname ipAddress : String) : World :=
  match s.db.ExecInsertLog username status hostname ipAddress with
  | .error err => { s with stderr := s.stderr ++ ["Failed to insert log entry: " ++ err.Error] }
  | .ok db => { s with db := db }

/-- The function `renderTemplate`. -/
def renderTemplate (fs : Files) (tmpl : String) (data : Option String) : List Reply :=
  match fs tmpl with
  | .error err => [Reply.Error err StatusInternalServerError]
  | .ok t =>
    match t.Execute data with
    | (out, some err) => [Reply.Write out, Reply.Error err StatusInternalServerError]
    | (out, none) => [Reply.Write out]

/-- The function `cd`. -/
def cd : String :=
  "unfortunately, i cannot afford more directories.\nif you want to help, you can ... \x27."

/-- The function `ls`. -/
def ls : String := "This is the list of files: file1.txt, file2.txt, file3.txt"

/-- The function `clear`. -/
def clear : String := ""

/-- The function `loginHandler`. -/
def loginHandler (fs : Files) (s : World) (r : Request) : World × List Reply :=
  if r.Method ≠ "POST" then
    (s, renderTemplate fs "login.html" none)
  else
    let username := r.FormValue "username"
    let password := r.FormValue "password"
    match getUser s username with
    | .error _ =>
      (logEntry s username "failed" r.Host r.RemoteAddr,
        [Reply.Error "Invalid username or password" StatusUnauthorized])
    | .ok user =>
      if password ≠ user.Password then
        (logEntry s username "failed" r.Host r.RemoteAddr,
          [Reply.Error "Invalid username or password" StatusUnauthorized])
      else
        (logEntry s username "success" r.Host r.RemoteAddr,
          [Reply.Redirect "/dashboard" StatusFound])

/-- The function `dashboardHandler`. -/
def dashboardHandler (fs : Files) (s : World) (r : Request) : World × List Reply :=
  let command := r.FormValue "command"
  let output :=
    if command = "cd" then cd
    else if command = "ls" then ls
    else if command = "clear" then clear
    else "Unknown command"
  (s, renderTemplate fs "dashboard.html" (some output))

/-! ## Vocabulary for the statements -/

/-- The reply of an accepted login attempt. -/
def accepted : List Reply := [Reply.Redirect "/dashboard" 302]

/-- The reply of a rejected login attempt. -/
def rejected : List Reply := [Reply.Error "Invalid username or password" 401]

/-- The rows a step added to table `logs`. -/
def appended (before after : World) : List LogEntry :=
  after.db.logs.drop before.db.logs.length

/-- A template environment in which both pages parse and render. -/
def pages : Files := fun name =>
  if name = "login.html" then .ok { Execute := fun _ => ("<form>", none) }
  else if name = "dashboard.html" then
    .ok { Execute := fun data => ("<pre>" ++ data.getD "" ++ "</pre>", none) }
  else .error ("open " ++ name ++ ": no such file or directory")

/-- A reachable database holding the single user alice. -/
def aliceDB : DB :=
  { users := [{ username := "alice", password := some "s3cret" }], logs := [], now := 7,
    queryFault := none, execFault := none }

/-- A world over `aliceDB` with nothing printed yet. -/
def aliceWorld : World := { db := aliceDB, stderr := [] }

/-- A POST of the login form. -/
def post (username password host addr : String) : Request :=
  { Method := "POST", Form := [("username", username), ("password", password)],
    Host := host, RemoteAddr := addr }

/-- The world at a later reading `t` of the database clock. -/
def World.atTime (s : World) (t : Nat) : World := { s with db := { s.db with now := t } }

/-- The world of `aliceWorld` with the `INSERT` into `logs` failing. -/
def noInsertWorld : World :=
  { db := { aliceDB with execFault := some "pq: permission denied for table logs" }, stderr := [] }

/-- The world of `aliceWorld` with the database server unreachable: both the
`SELECT` and the `INSERT` fail. -/
def downWorld : World :=
  { db := { aliceDB with
      queryFault := some "dial tcp 127.0.0.1:5432: connect: connection refused",
      execFault := some "dial tcp 127.0.0.1:5432: connect: connection refused" },
    stderr := [] }

/-- The world of `aliceWorld` with only the `SELECT` on `users` failing. -/
def noSelectWorld : World :=
  { db := { aliceDB with queryFault := some "pq: permission denied for table users" },
    stderr := [] }

/-- The world of `aliceWorld` with an empty table `users`. -/
def emptyWorld : World := { db := { aliceDB with users := [] }, stderr := [] }

/-! ## Basic facts about the database operations and `logEntry` -/

theorem logEntry_of_exec_ok (s : World) (username status hostname ipAddress : String)
    (h : s.db.execFault = none) :
    logEntry s username status hostname ipAddress =
      { s with db := { s.db with logs := s.db.logs ++
          [{ Username := username, Status := status, Timestamp := s.db.now,
             Hostname := hostname, IPAddress := ipAddress }] } } := by
  simp [logEntry, DB.ExecInsertLog, h]

theorem logEntry_of_exec_fault (s : World) (username status hostname ipAddress msg : String)
    (h : s.db.execFault = some msg) :
    logEntry s username status hostname ipAddress =
      { s with stderr := s.stderr ++ ["Failed to insert log entry: " ++ msg] } := by
  simp [logEntry, DB.ExecInsertLog, h, SqlError.Error]

theorem appended_logEntry_of_exec_ok (s : World) (username status hostname ipAddress : String)
    (h : s.db.execFault = none) :
    appended s (logEntry s username status hostname ipAddress) =
      [{ Username := username, Status := status, Timestamp := s.db.now,
         Hostname := hostname, IPAddress := ipAddress }] := by
  simp [appended, logEntry_of_exec_ok s username status hostname ipAddress h]

theorem appended_logEntry_of_exec_fault (s : World) (username status hostname ipAddress msg : String)
    (h : s.db.execFault = some msg) :
    appended s (logEntry s username status hostname ipAddress) = [] := by
  simp [appended, logEntry_of_exec_fault s username status hostname ipAddress msg h]

theorem status_of_appended_logEntry (s : World) (username status hostname ipAddress : String)
    (rec : LogEntry) (h : rec ∈ appended s (logEntry s username status hostname ipAddress)) :
    rec.Status = status := by
  cases hf : s.db.execFault with
  | none =>
    rw [appended_logEntry_of_exec_ok s username status hostname ipAddress hf] at h
    simp at h
    simp [h]
  | some msg =>
    rw [appended_logEntry_of_exec_fault s username status hostname ipAddress msg hf] at h
    simp at h

theorem logEntry_users (s : World) (username status hostname ipAddress : String) :
    (logEntry s username status hostname ipAddress).db.users = s.db.users ∧
    (logEntry s username status hostname ipAddress).db.queryFault = s.db.queryFault ∧
    (logEntry s username status hostname ipAddress).db.execFault = s.db.execFault ∧
    (logEntry s username status hostname ipAddress).db.now = s.db.now := by
  cases hf : s.db.execFault with
  | none => simp [logEntry_of_exec_ok s username status hostname ipAddress hf, hf]
  | some msg => simp [logEntry_of_exec_fault s username status hostname ipAddress msg hf, hf]

/-- A failing `SELECT` makes `getUser` return the error of the server. -/
theorem getUser_of_query_fault (s : World) (username msg : String)
    (h : s.db.queryFault = some msg) :
    getUser s username = .error (.other msg) := by
  simp [getUser, DB.QueryRowScan, h]

/-- With a working `SELECT` and no row for the username, `getUser` returns
`sql.ErrNoRows`. -/
theorem getUser_of_absent (s : World) (username : String)
    (hq : s.db.queryFault = none) (ha : ∀ row ∈ s.db.users, row.username ≠ username) :
    getUser s username = .error .ErrNoRows := by
  have hfind : s.db.users.find? (fun row => row.username == username) = none := by
    rw [List.find?_eq_none]
    intro row hrow
    simpa using ha row hrow
  simp [getUser, DB.QueryRowScan, hq, hfind]

/-- When `getUser` returns a user, it is a row of `users` with the requested
username and a password that is not `NULL`. -/
theorem getUser_ok_mem (s : World) (username : String) (user : User)
    (h : getUser s username = .ok user) :
    user.Username = username ∧
    { username := user.Username, password := some user.Password } ∈ s.db.users := by
  unfold getUser DB.QueryRowScan at h
  cases hq : s.db.queryFault with
  | some msg => simp [hq] at h
  | none =>
    cases hfind : s.db.users.find? (fun row => row.username == username) with
    | none => simp [hq, hfind] at h
    | some row =>
      have hmem := List.mem_of_find?_eq_some hfind
      have hname := List.find?_some hfind
      cases hpw : row.password with
      | none => simp [hq, hfind, hpw] at h
      | some pw =>
        simp [hq, hfind, hpw] at h
        subst h
        refine ⟨by simpa using hname, ?_⟩
        have : row = { username := row.username, password := some pw } := by
          cases row
          simp_all
        rw [← this]
        exact hmem

/-- The lookup reads the table `users` and the query fault only. -/
theorem getUser_congr (s t : World) (username : String)
    (hu : t.db.users = s.db.users) (hq : t.db.queryFault = s.db.queryFault) :
    getUser t username = getUser s username := by
  simp [getUser, DB.QueryRowScan, hu, hq]

/-! ## The three outcomes of a POST to `loginHandler` -/

theorem loginHandler_of_lookup_error (fs : Files) (s : World) (r : Request) (err : SqlError)
    (hm : r.Method = "POST") (hg : getUser s (r.FormValue "username") = .error err) :
    loginHandler fs s r =
      (logEntry s (r.FormValue "username") "failed" r.Host r.RemoteAddr, rejected) := by
  simp [loginHandler, hm, hg, rejected, StatusUnauthorized]

theorem loginHandler_of_mismatch (fs : Files) (s : World) (r : Request) (user : User)
    (hm : r.Method = "POST") (hg : getUser s (r.FormValue "username") = .ok user)
    (hp : r.FormValue "password" ≠ user.Password) :
    loginHandler fs s r =
      (logEntry s (r.FormValue "username") "failed" r.Host r.RemoteAddr, rejected) := by
  simp [loginHandler, hm, hg, hp, rejected, StatusUnauthorized]

theorem loginHandler_of_match (fs : Files) (s : World) (r : Request) (user : User)
    (hm : r.Method = "POST") (hg : getUser s (r.FormValue "username") = .ok user)
    (hp : r.FormValue "password" = user.Password) :
    loginHandler fs s r =
      (logEntry s (r.FormValue "username") "success" r.Host r.RemoteAddr, accepted) := by
  simp [loginHandler, hm, hg, hp, accepted, StatusFound]

theorem accepted_ne_rejected : accepted ≠ rejected := by decide

/-- A POST login attempt has one of two replies. -/
theorem loginHandler_reply_cases (fs : Files) (s : World) (r : Request)
    (hm : r.Method = "POST") :
    (loginHandler fs s r).2 = accepted ∨ (loginHandler fs s r).2 = rejected := by
  cases hg : getUser s (r.FormValue "username") with
  | error err => right; rw [loginHandler_of_lookup_error fs s r err hm hg]
  | ok user =>
    by_cases hp : r.FormValue "password" = user.Password
    · left; rw [loginHandler_of_match fs s r user hm hg hp]
    · right; rw [loginHandler_of_mismatch fs s r user hm hg hp]

/-- The reply of a POST login attempt is computed from the result of `getUser`
and the submitted password. -/
theorem loginHandler_reply_congr (fs fs' : Files) (s s' : World) (r r' : Request)
    (hm : r.Method = "POST") (hm' : r'.Method = "POST")
    (hg : getUser s' (r'.FormValue "username") = getUser s (r.FormValue "username"))
    (hp : r'.FormValue "password" = r.FormValue "password") :
    (loginHandler fs' s' r').2 = (loginHandler fs s r).2 := by
  cases hgs : getUser s (r.FormValue "username") with
  | error err =>
    rw [loginHandler_of_lookup_error fs s r err hm hgs,
      loginHandler_of_lookup_error fs' s' r' err hm' (hg.trans hgs)]
  | ok user =>
    by_cases hpw : r.FormValue "password" = user.Password
    · rw [loginHandler_of_match fs s r user hm hgs hpw,
        loginHandler_of_match fs' s' r' user hm' (hg.trans hgs) (hp.trans hpw)]
    · rw [loginHandler_of_mismatch fs s r user hm hgs hpw,
        loginHandler_of_mismatch fs' s' r' user hm' (hg.trans hgs) (fun h => hpw (hp.symm.trans h))]

/-- The world after a POST login attempt is the world after one call of
`logEntry` with the submitted username and the caller host and address. -/
theorem login_world_is_logEntry (fs : Files) (s : World) (r : Request)
    (hm : r.Method = "POST") :
    ∃ status : String,
      (loginHandler fs s r).1 = logEntry s (r.FormValue "username") status r.Host r.RemoteAddr := by
  cases hg : getUser s (r.FormValue "username") with
  | error err => exact ⟨"failed", by rw [loginHandler_of_lookup_error fs s r err hm hg]⟩
  | ok user =>
    by_cases hp : r.FormValue "password" = user.Password
    · exact ⟨"success", by rw [loginHandler_of_match fs s r user hm hg hp]⟩
    · exact ⟨"failed", by rw [loginHandler_of_mismatch fs s r user hm hg hp]⟩

/-- Which branch a POST login attempt takes is fixed by the result of `getUser`
and the request: in every world with the same lookup result the handler makes
the same call of `logEntry` and gives the same reply. -/
theorem login_branch (fs : Files) (s : World) (r : Request) (hm : r.Method = "POST") :
    ∃ (status : String) (reply : List Reply), ∀ s' : World,
      getUser s' (r.FormValue "username") = getUser s (r.FormValue "username") →
      loginHandler fs s' r
        = (logEntry s' (r.FormValue "username") status r.Host r.RemoteAddr, reply) := by
  cases hg : getUser s (r.FormValue "username") with
  | error err =>
    exact ⟨"failed", rejected, fun s' h => loginHandler_of_lookup_error fs s' r err hm h⟩
  | ok user =>
    by_cases hp : r.FormValue "password" = user.Password
    · exact ⟨"success", accepted, fun s' h => loginHandler_of_match fs s' r user hm h hp⟩
    · exact ⟨"failed", rejected, fun s' h => loginHandler_of_mismatch fs s' r user hm h hp⟩

/-! ## The login attempt and its audit record -/

/-- C1, as stated, fails when the `INSERT` fails: with the user present and the
right password the attempt is accepted and table `logs` is left as it was, and
with the database unreachable the attempt is rejected and again no record is
appended; in both worlds the only trace is a line printed by package `log`. -/
theorem login_appends_nothing_when_insert_fails :
    (loginHandler pages noInsertWorld (post "alice" "s3cret" "host1" "10.0.0.1")).2 = accepted ∧
    (loginHandler pages noInsertWorld (post "alice" "s3cret" "host1" "10.0.0.1")).1.db.logs
      = noInsertWorld.db.logs ∧
    (loginHandler pages downWorld (post "alice" "s3cret" "host1" "10.0.0.1")).2 = rejected ∧
    (loginHandler pages downWorld (post "alice" "s3cret" "host1" "10.0.0.1")).1.db.logs
      = downWorld.db.logs ∧
    (loginHandler pages downWorld (post "alice" "s3cret" "host1" "10.0.0.1")).1.stderr
      = ["Failed to insert log entry: dial tcp 127.0.0.1:5432: connect: connection refused"] := by
  refine ⟨?_, ?_, ?_, ?_, ?_⟩ <;> decide

/-- C1, amended: a POST login attempt makes exactly one call of `logEntry`, with
the submitted username, the caller host and address, and a status that is
"success" exactly when the reply is the redirect to /dashboard and "failed"
exactly when it is the 401 rejection.  When the `INSERT` is accepted, exactly
one record, with that status, is appended to `logs` and nothing is printed;
when it fails, `logs` is unchanged and one line is printed. -/
theorem login_calls_logEntry_once (fs : Files) (s : World) (r : Request)
    (hm : r.Method = "POST") :
    ∃ status : String,
      (loginHandler fs s r).1
        = logEntry s (r.FormValue "username") status r.Host r.RemoteAddr ∧
      (status = "success" ↔ (loginHandler fs s r).2 = accepted) ∧
      (status = "failed" ↔ (loginHandler fs s r).2 = rejected) ∧
      (s.db.execFault = none →
        (loginHandler fs s r).1.db.logs = s.db.logs ++
          [{ Username := r.FormValue "username", Status := status, Timestamp := s.db.now,
             Hostname := r.Host, IPAddress := r.RemoteAddr }] ∧
        (loginHandler fs s r).1.stderr = s.stderr) ∧
      (∀ msg, s.db.execFault = some msg →
        (loginHandler fs s r).1.db.logs = s.db.logs ∧
        (loginHandler fs s r).1.stderr = s.stderr ++ ["Failed to insert log entry: " ++ msg]) := by
  have hsf : ("success" : String) ≠ "failed" := by decide
  have key : ∀ status : String, ∀ out : World × List Reply,
      out = (logEntry s (r.FormValue "username") status r.Host r.RemoteAddr,
        if status = "success" then accepted else rejected) →
      (status = "success" ∨ status = "failed") →
      out.1 = logEntry s (r.FormValue "username") status r.Host r.RemoteAddr ∧
      (status = "success" ↔ out.2 = accepted) ∧
      (status = "failed" ↔ out.2 = rejected) ∧
      (s.db.execFault = none →
        out.1.db.logs = s.db.logs ++
          [{ Username := r.FormValue "username", Status := status, Timestamp := s.db.now,
             Hostname := r.Host, IPAddress := r.RemoteAddr }] ∧
        out.1.stderr = s.stderr) ∧
      (∀ msg, s.db.execFault = some msg →
        out.1.db.logs = s.db.logs ∧
        out.1.stderr = s.stderr ++ ["Failed to insert log entry: " ++ msg]) := by
    intro status out hout hst
    subst hout
    refine ⟨rfl, ?_, ?_, ?_, ?_⟩
    · rcases hst with h | h
      · simp [h]
      · simp [h, hsf.symm, accepted_ne_rejected.symm]
    · rcases hst with h | h
      · simp [h, hsf, accepted_ne_rejected]
      · simp [h, hsf.symm]
    · intro hf
      simp [logEntry_of_exec_ok s _ status _ _ hf]
    · intro msg hf
      simp [logEntry_of_exec_fault s _ status _ _ msg hf]
  cases hg : getUser s (r.FormValue "username") with
  | error err =>
    exact ⟨"failed", key "failed" _
      (by rw [loginHandler_of_lookup_error fs s r err hm hg]; simp [hsf.symm]) (Or.inr rfl)⟩
  | ok user =>
    by_cases hp : r.FormValue "password" = user.Password
    · exact ⟨"success", key "success" _
        (by rw [loginHandler_of_match fs s r user hm hg hp]; simp) (Or.inl rfl)⟩
    · exact ⟨"failed", key "failed" _
        (by rw [loginHandler_of_mismatch fs s r user hm hg hp]; simp [hsf.symm]) (Or.inr rfl)⟩

/-- Witness of C1 (amended) on the accepted attempt of alice. -/
theorem login_calls_logEntry_once_witness :
    (post "alice" "s3cret" "host1" "10.0.0.1").Method = "POST" ∧
    ∃ status : String,
      (loginHandler pages aliceWorld (post "alice" "s3cret" "host1" "10.0.0.1")).1
        = logEntry aliceWorld ((post "alice" "s3cret" "host1" "10.0.0.1").FormValue "username")
            status (post "alice" "s3cret" "host1" "10.0.0.1").Host
            (post "alice" "s3cret" "host1" "10.0.0.1").RemoteAddr ∧
      (status = "success" ↔
        (loginHandler pages aliceWorld (post "alice" "s3cret" "host1" "10.0.0.1")).2 = accepted) ∧
      (status = "failed" ↔
        (loginHandler pages aliceWorld (post "alice" "s3cret" "host1" "10.0.0.1")).2 = rejected) ∧
      (aliceWorld.db.execFault = none →
        (loginHandler pages aliceWorld (post "alice" "s3cret" "host1" "10.0.0.1")).1.db.logs
          = aliceWorld.db.logs ++
            [{ Username := (post "alice" "s3cret" "host1" "10.0.0.1").FormValue "username",
               Status := status, Timestamp := aliceWorld.db.now,
               Hostname := (post "alice" "s3cret" "host1" "10.0.0.1").Host,
               IPAddress := (post "alice" "s3cret" "host1" "10.0.0.1").RemoteAddr }] ∧
        (loginHandler pages aliceWorld (post "alice" "s3cret" "host1" "10.0.0.1")).1.stderr
          = aliceWorld.stderr) ∧
      (∀ msg, aliceWorld.db.execFault = some msg →
        (loginHandler pages aliceWorld (post "alice" "s3cret" "host1" "10.0.0.1")).1.db.logs
          = aliceWorld.db.logs ∧
        (loginHandler pages aliceWorld (post "alice" "s3cret" "host1" "10.0.0.1")).1.stderr
          = aliceWorld.stderr ++ ["Failed to insert log entry: " ++ msg]) :=
  ⟨by decide,
    login_calls_logEntry_once pages aliceWorld (post "alice" "s3cret" "host1" "10.0.0.1")
      (by decide)⟩

/-- C2: when `getUser` returns a stored user and the submitted password equals
the stored one, a POST login attempt is answered by the redirect to /dashboard
with status 302, the one call of `logEntry` carries status "success", every
record the attempt adds to `logs` has status "success", and one such record is
added whenever the `INSERT` is accepted. -/
theorem login_accepts_matching_password (fs : Files) (s : World) (r : Request) (user : User)
    (hm : r.Method = "POST")
    (hg : getUser s (r.FormValue "username") = .ok user)
    (hp : r.FormValue "password" = user.Password) :
    (loginHandler fs s r).2 = [Reply.Redirect "/dashboard" 302] ∧
    (loginHandler fs s r).1 = logEntry s (r.FormValue "username") "success" r.Host r.RemoteAddr ∧
    (∀ rec ∈ appended s (loginHandler fs s r).1, rec.Status = "success") ∧
    (s.db.execFault = none →
      (loginHandler fs s r).1.db.logs = s.db.logs ++
        [{ Username := r.FormValue "username", Status := "success", Timestamp := s.db.now,
           Hostname := r.Host, IPAddress := r.RemoteAddr }]) := by
  rw [loginHandler_of_match fs s r user hm hg hp]
  refine ⟨rfl, rfl, ?_, ?_⟩
  · intro rec hrec
    exact status_of_appended_logEntry s _ _ _ _ rec hrec
  · intro hf
    simp [logEntry_of_exec_ok s _ "success" _ _ hf]

/-- Witness of C2: the stored user ("alice", "s3cret") and the attempt
("alice", "s3cret"). -/
theorem login_accepts_matching_password_witness :
    (post "alice" "s3cret" "host1" "10.0.0.1").Method = "POST" ∧
    getUser aliceWorld ((post "alice" "s3cret" "host1" "10.0.0.1").FormValue "username")
      = .ok { Username := "alice", Password := "s3cret" } ∧
    (loginHandler pages aliceWorld (post "alice" "s3cret" "host1" "10.0.0.1")).2
      = [Reply.Redirect "/dashboard" 302] ∧
    (loginHandler pages aliceWorld (post "alice" "s3cret" "host1" "10.0.0.1")).1.db.logs
      = [{ Username := "alice", Status := "success", Timestamp := 7,
           Hostname := "host1", IPAddress := "10.0.0.1" }] :=
  have h := login_accepts_matching_password pages aliceWorld
    (post "alice" "s3cret" "host1" "10.0.0.1") { Username := "alice", Password := "s3cret" }
    (by decide) rfl (by decide)
  ⟨by decide, rfl, h.1, h.2.2.2 (by decide)⟩

/-- C3: when `getUser` returns an error, whichever it is (no row for the
username, a fault of the server, a row that cannot be scanned), a POST login
attempt is answered by the 401 rejection and not by the redirect, whatever the
password; the one call of `logEntry` carries status "failed", every record the
attempt adds to `logs` has status "failed", and one such record is added
whenever the `INSERT` is accepted. -/
theorem login_rejects_on_lookup_error (fs : Files) (s : World) (r : Request) (err : SqlError)
    (hm : r.Method = "POST")
    (hg : getUser s (r.FormValue "username") = .error err) :
    (loginHandler fs s r).2 = [Reply.Error "Invalid username or password" 401] ∧
    (loginHandler fs s r).2 ≠ [Reply.Redirect "/dashboard" 302] ∧
    (loginHandler fs s r).1 = logEntry s (r.FormValue "username") "failed" r.Host r.RemoteAddr ∧
    (∀ rec ∈ appended s (loginHandler fs s r).1, rec.Status = "failed") ∧
    (s.db.execFault = none →
      (loginHandler fs s r).1.db.logs = s.db.logs ++
        [{ Username := r.FormValue "username", Status := "failed", Timestamp := s.db.now,
           Hostname := r.Host, IPAddress := r.RemoteAddr }]) := by
  rw [loginHandler_of_lookup_error fs s r err hm hg]
  refine ⟨rfl, ?_, rfl, ?_, ?_⟩
  · exact fun h => accepted_ne_rejected h.symm
  · intro rec hrec
    exact status_of_appended_logEntry s _ _ _ _ rec hrec
  · intro hf
    simp [logEntry_of_exec_ok s _ "failed" _ _ hf]

/-- Witness of C3: the table `users` can be read and holds alice, and the
attempt names bob, so the lookup ends in `sql.ErrNoRows`. -/
theorem login_rejects_on_lookup_error_witness :
    (post "bob" "anything" "host1" "10.0.0.1").Method = "POST" ∧
    getUser aliceWorld ((post "bob" "anything" "host1" "10.0.0.1").FormValue "username")
      = .error SqlError.ErrNoRows ∧
    (loginHandler pages aliceWorld (post "bob" "anything" "host1" "10.0.0.1")).2
      = [Reply.Error "Invalid username or password" 401] ∧
    (loginHandler pages aliceWorld (post "bob" "anything" "host1" "10.0.0.1")).1.db.logs
      = [{ Username := "bob", Status := "failed", Timestamp := 7,
           Hostname := "host1", IPAddress := "10.0.0.1" }] :=
  have h := login_rejects_on_lookup_error pages aliceWorld
    (post "bob" "anything" "host1" "10.0.0.1") SqlError.ErrNoRows (by decide) rfl
  ⟨by decide, rfl, h.1, h.2.2.2.2 (by decide)⟩

/-- C4: when `getUser` returns a stored user and the submitted password is not
equal, as a string, to the stored one, a POST login attempt is answered by the
401 rejection; the one call of `logEntry` carries status "failed", every record
the attempt adds to `logs` has status "failed", and one such record is added
whenever the `INSERT` is accepted.  The test is `password != user.Password` on
the strings as they are: nothing is trimmed or case-folded. -/
theorem login_rejects_other_password (fs : Files) (s : World) (r : Request) (user : User)
    (hm : r.Method = "POST")
    (hg : getUser s (r.FormValue "username") = .ok user)
    (hp : r.FormValue "password" ≠ user.Password) :
    (loginHandler fs s r).2 = [Reply.Error "Invalid username or password" 401] ∧
    (loginHandler fs s r).1 = logEntry s (r.FormValue "username") "failed" r.Host r.RemoteAddr ∧
    (∀ rec ∈ appended s (loginHandler fs s r).1, rec.Status = "failed") ∧
    (s.db.execFault = none →
      (loginHandler fs s r).1.db.logs = s.db.logs ++
        [{ Username := r.FormValue "username", Status := "failed", Timestamp := s.db.now,
           Hostname := r.Host, IPAddress := r.RemoteAddr }]) := by
  rw [loginHandler_of_mismatch fs s r user hm hg hp]
  refine ⟨rfl, rfl, ?_, ?_⟩
  · intro rec hrec
    exact status_of_appended_logEntry s _ _ _ _ rec hrec
  · intro hf
    simp [logEntry_of_exec_ok s _ "failed" _ _ hf]

/-- Witness of C4: the stored password is "s3cret" and the attempt submits
"S3cret ", which differs only in letter case and a trailing blank. -/
theorem login_rejects_other_password_witness :
    (post "alice" "S3cret " "host1" "10.0.0.1").Method = "POST" ∧
    getUser aliceWorld ((post "alice" "S3cret " "host1" "10.0.0.1").FormValue "username")
      = .ok { Username := "alice", Password := "s3cret" } ∧
    (post "alice" "S3cret " "host1" "10.0.0.1").FormValue "password" ≠ "s3cret" ∧
    (loginHandler pages aliceWorld (post "alice" "S3cret " "host1" "10.0.0.1")).2
      = [Reply.Error "Invalid username or password" 401] ∧
    (loginHandler pages aliceWorld (post "alice" "S3cret " "host1" "10.0.0.1")).1.db.logs
      = [{ Username := "alice", Status := "failed", Timestamp := 7,
           Hostname := "host1", IPAddress := "10.0.0.1" }] :=
  have h := login_rejects_other_password pages aliceWorld
    (post "alice" "S3cret " "host1" "10.0.0.1") { Username := "alice", Password := "s3cret" }
    (by decide) rfl (by decide)
  ⟨by decide, rfl, by decide, h.1, h.2.2.2 (by decide)⟩

/-! ## Lookup errors and audit-write failures -/

/-- C5, as stated, fails: an attempt made while the `SELECT` on `users` fails
and the same attempt made against a readable table without the username end in
the same reply, the same table `logs` and the same (empty) output of package
`log`, although `getUser` returned different errors. -/
theorem store_fault_looks_like_absent_user :
    getUser noSelectWorld "alice" = .error (.other "pq: permission denied for table users") ∧
    getUser emptyWorld "alice" = .error .ErrNoRows ∧
    (loginHandler pages noSelectWorld (post "alice" "s3cret" "host1" "10.0.0.1")).2
      = (loginHandler pages emptyWorld (post "alice" "s3cret" "host1" "10.0.0.1")).2 ∧
    (loginHandler pages noSelectWorld (post "alice" "s3cret" "host1" "10.0.0.1")).1.db.logs
      = (loginHandler pages emptyWorld (post "alice" "s3cret" "host1" "10.0.0.1")).1.db.logs ∧
    (loginHandler pages noSelectWorld (post "alice" "s3cret" "host1" "10.0.0.1")).1.stderr
      = (loginHandler pages emptyWorld (post "alice" "s3cret" "host1" "10.0.0.1")).1.stderr ∧
    (loginHandler pages noSelectWorld (post "alice" "s3cret" "host1" "10.0.0.1")).1.stderr = [] := by
  refine ⟨rfl, rfl, ?_, ?_, ?_, ?_⟩ <;> decide

/-- C5, amended: `loginHandler` reports no condition of its own when the lookup
fails.  Take a world in which `getUser` fails and replace its credential store
(table `users` and the state of the `SELECT`) by any other one in which
`getUser` fails too, for instance one that is reachable and lacks the username:
the reply (the 401 rejection), the table `logs` and the output of package `log`
after the attempt are the same in both. -/
theorem lookup_errors_have_same_effects (fs : Files) (s : World) (users : List UsersRow)
    (fault : Option String) (r : Request) (err err' : SqlError)
    (hm : r.Method = "POST")
    (hg : getUser s (r.FormValue "username") = .error err)
    (hg' : getUser { s with db := { s.db with users := users, queryFault := fault } }
      (r.FormValue "username") = .error err') :
    (loginHandler fs s r).2 = rejected ∧
    (loginHandler fs { s with db := { s.db with users := users, queryFault := fault } } r).2
      = (loginHandler fs s r).2 ∧
    (loginHandler fs { s with db := { s.db with users := users, queryFault := fault } } r).1.db.logs
      = (loginHandler fs s r).1.db.logs ∧
    (loginHandler fs { s with db := { s.db with users := users, queryFault := fault } } r).1.stderr
      = (loginHandler fs s r).1.stderr := by
  rw [loginHandler_of_lookup_error fs s r err hm hg, loginHandler_of_lookup_error fs _ r err' hm hg']
  refine ⟨rfl, rfl, ?_, ?_⟩
  · cases hf : s.db.execFault with
    | none =>
      rw [logEntry_of_exec_ok s _ _ _ _ hf, logEntry_of_exec_ok _ _ _ _ _ (by simpa using hf)]
    | some msg =>
      rw [logEntry_of_exec_fault s _ _ _ _ msg hf,
        logEntry_of_exec_fault _ _ _ _ _ msg (by simpa using hf)]
  · cases hf : s.db.execFault with
    | none =>
      rw [logEntry_of_exec_ok s _ _ _ _ hf, logEntry_of_exec_ok _ _ _ _ _ (by simpa using hf)]
    | some msg =>
      rw [logEntry_of_exec_fault s _ _ _ _ msg hf,
        logEntry_of_exec_fault _ _ _ _ _ msg (by simpa using hf)]

/-- Witness of C5 (amended): the `SELECT` fails in the first world; the second
has a readable, empty table `users`. -/
theorem lookup_errors_have_same_effects_witness :
    (post "alice" "s3cret" "host1" "10.0.0.1").Method = "POST" ∧
    getUser noSelectWorld ((post "alice" "s3cret" "host1" "10.0.0.1").FormValue "username")
      = .error (.other "pq: permission denied for table users") ∧
    getUser { noSelectWorld with db := { noSelectWorld.db with users := [], queryFault := none } }
      ((post "alice" "s3cret" "host1" "10.0.0.1").FormValue "username") = .error .ErrNoRows ∧
    (loginHandler pages noSelectWorld (post "alice" "s3cret" "host1" "10.0.0.1")).2 = rejected ∧
    (loginHandler pages
        { noSelectWorld with db := { noSelectWorld.db with users := [], queryFault := none } }
        (post "alice" "s3cret" "host1" "10.0.0.1")).2
      = (loginHandler pages noSelectWorld (post "alice" "s3cret" "host1" "10.0.0.1")).2 ∧
    (loginHandler pages
        { noSelectWorld with db := { noSelectWorld.db with users := [], queryFault := none } }
        (post "alice" "s3cret" "host1" "10.0.0.1")).1.db.logs
      = (loginHandler pages noSelectWorld (post "alice" "s3cret" "host1" "10.0.0.1")).1.db.logs ∧
    (loginHandler pages
        { noSelectWorld with db := { noSelectWorld.db with users := [], queryFault := none } }
        (post "alice" "s3cret" "host1" "10.0.0.1")).1.stderr
      = (loginHandler pages noSelectWorld (post "alice" "s3cret" "host1" "10.0.0.1")).1.stderr :=
  ⟨by decide, rfl, rfl,
    lookup_errors_have_same_effects pages noSelectWorld [] none
      (post "alice" "s3cret" "host1" "10.0.0.1")
      (.other "pq: permission denied for table users") .ErrNoRows (by decide) rfl rfl⟩

/-- C6: whether the `INSERT` of `logEntry` succeeds or fails, a POST login
attempt gets the same reply: the redirect when `getUser` returns a user whose
password equals the submitted one, the 401 rejection otherwise.  A failed
`INSERT` is reported: the line "Failed to insert log entry: " followed by the
error is printed through package `log`. -/
theorem insert_failure_keeps_decision (fs : Files) (s : World) (r : Request)
    (fault : Option String) (hm : r.Method = "POST") :
    (loginHandler fs { s with db := { s.db with execFault := fault } } r).2
      = (loginHandler fs { s with db := { s.db with execFault := none } } r).2 ∧
    ((loginHandler fs { s with db := { s.db with execFault := fault } } r).2 = accepted ↔
      ∃ user, getUser s (r.FormValue "username") = .ok user ∧
        r.FormValue "password" = user.Password) ∧
    ((loginHandler fs { s with db := { s.db with execFault := fault } } r).2 ≠ accepted →
      (loginHandler fs { s with db := { s.db with execFault := fault } } r).2 = rejected) ∧
    (∀ msg, fault = some msg →
      (loginHandler fs { s with db := { s.db with execFault := fault } } r).1.stderr
        = s.stderr ++ ["Failed to insert log entry: " ++ msg]) := by
  have hgf : ∀ f : Option String,
      getUser { s with db := { s.db with execFault := f } } (r.FormValue "username")
        = getUser s (r.FormValue "username") :=
    fun f => getUser_congr s _ _ rfl rfl
  refine ⟨?_, ?_, ?_, ?_⟩
  · exact loginHandler_reply_congr fs fs _ _ r r hm hm ((hgf fault).trans (hgf none).symm) rfl
  · cases hg : getUser s (r.FormValue "username") with
    | error err =>
      rw [loginHandler_of_lookup_error fs _ r err hm ((hgf fault).trans hg)]
      simp [accepted_ne_rejected.symm]
    | ok user =>
      by_cases hp : r.FormValue "password" = user.Password
      · rw [loginHandler_of_match fs _ r user hm ((hgf fault).trans hg) hp]
        simp [hp]
      · rw [loginHandler_of_mismatch fs _ r user hm ((hgf fault).trans hg) hp]
        simp [accepted_ne_rejected.symm, hp]
  · intro hne
    rcases loginHandler_reply_cases fs _ r hm with h | h
    · exact absurd h hne
    · exact h
  · intro msg hmsg
    subst hmsg
    rcases login_world_is_logEntry fs { s with db := { s.db with execFault := some msg } } r hm
      with ⟨status, hst⟩
    rw [hst, logEntry_of_exec_fault _ _ status _ _ msg rfl]

/-- Witness of C6: alice logs in with the right password while the `INSERT`
is refused; she is redirected all the same and the failure is printed. -/
theorem insert_failure_keeps_decision_witness :
    (post "alice" "s3cret" "host1" "10.0.0.1").Method = "POST" ∧
    (loginHandler pages
        { aliceWorld with db := { aliceWorld.db with
            execFault := some "pq: permission denied for table logs" } }
        (post "alice" "s3cret" "host1" "10.0.0.1")).2
      = (loginHandler pages { aliceWorld with db := { aliceWorld.db with execFault := none } }
          (post "alice" "s3cret" "host1" "10.0.0.1")).2 ∧
    (loginHandler pages
        { aliceWorld with db := { aliceWorld.db with
            execFault := some "pq: permission denied for table logs" } }
        (post "alice" "s3cret" "host1" "10.0.0.1")).1.stderr
      = aliceWorld.stderr ++
          ["Failed to insert log entry: " ++ "pq: permission denied for table logs"] :=
  have h := insert_failure_keeps_decision pages aliceWorld
    (post "alice" "s3cret" "host1" "10.0.0.1") (some "pq: permission denied for table logs")
    (by decide)
  ⟨by decide, h.1, h.2.2.2 "pq: permission denied for table logs" rfl⟩

/-! ## What the caller sees of a rejection, and what the record holds -/

/-- C7: any two rejected POST login attempts, in whatever worlds and with
whatever inputs, get the same reply, `http.Error` with the message
"Invalid username or password" and status 401; the reply of a rejection does
not depend on whether `getUser` failed, with which error, or returned a user
with another password. -/
theorem rejections_are_identical (fs fs' : Files) (s s' : World) (r r' : Request)
    (hm : r.Method = "POST") (hm' : r'.Method = "POST")
    (hr : (loginHandler fs s r).2 ≠ [Reply.Redirect "/dashboard" 302])
    (hr' : (loginHandler fs' s' r').2 ≠ [Reply.Redirect "/dashboard" 302]) :
    (loginHandler fs s r).2 = [Reply.Error "Invalid username or password" 401] ∧
    (loginHandler fs' s' r').2 = [Reply.Error "Invalid username or password" 401] ∧
    (loginHandler fs s r).2 = (loginHandler fs' s' r').2 := by
  have h1 : (loginHandler fs s r).2 = rejected := by
    rcases loginHandler_reply_cases fs s r hm with h | h
    · exact absurd h hr
    · exact h
  have h2 : (loginHandler fs' s' r').2 = rejected := by
    rcases loginHandler_reply_cases fs' s' r' hm' with h | h
    · exact absurd h hr'
    · exact h
  exact ⟨h1, h2, h1.trans h2.symm⟩

/-- Witness of C7: a wrong password for a stored user, and an unknown username
submitted from elsewhere while the database is unreachable. -/
theorem rejections_are_identical_witness :
    (post "alice" "wrong" "host1" "10.0.0.1").Method = "POST" ∧
    (post "mallory" "" "host2" "10.0.0.9").Method = "POST" ∧
    (loginHandler pages aliceWorld (post "alice" "wrong" "host1" "10.0.0.1")).2
      ≠ [Reply.Redirect "/dashboard" 302] ∧
    (loginHandler pages downWorld (post "mallory" "" "host2" "10.0.0.9")).2
      ≠ [Reply.Redirect "/dashboard" 302] ∧
    (loginHandler pages aliceWorld (post "alice" "wrong" "host1" "10.0.0.1")).2
      = [Reply.Error "Invalid username or password" 401] ∧
    (loginHandler pages downWorld (post "mallory" "" "host2" "10.0.0.9")).2
      = [Reply.Error "Invalid username or password" 401] ∧
    (loginHandler pages aliceWorld (post "alice" "wrong" "host1" "10.0.0.1")).2
      = (loginHandler pages downWorld (post "mallory" "" "host2" "10.0.0.9")).2 :=
  ⟨by decide, by decide, by decide, by decide,
    rejections_are_identical pages pages aliceWorld downWorld
      (post "alice" "wrong" "host1" "10.0.0.1") (post "mallory" "" "host2" "10.0.0.9")
      (by decide) (by decide) (by decide) (by decide)⟩

/-- C8: on every path of a POST login attempt the one call of `logEntry` gets
the username as submitted (found in the store or not), the status "success" or
"failed", and `r.Host` and `r.RemoteAddr` as they are.  `logEntry` passes its
four arguments to the `INSERT` unchanged, whatever strings they are: when the
`INSERT` is accepted the new row holds exactly them, and its timestamp is the
clock of the database, not a value of the program. -/
theorem audit_record_holds_submitted_values (fs : Files) (s : World) (r : Request)
    (hm : r.Method = "POST") :
    (∃ status : String, (status = "success" ∨ status = "failed") ∧
      (loginHandler fs s r).1
        = logEntry s (r.FormValue "username") status r.Host r.RemoteAddr ∧
      (s.db.execFault = none →
        (loginHandler fs s r).1.db.logs = s.db.logs ++
          [{ Username := r.FormValue "username", Status := status, Timestamp := s.db.now,
             Hostname := r.Host, IPAddress := r.RemoteAddr }])) ∧
    (∀ username status hostname ipAddress : String, s.db.execFault = none →
      (logEntry s username status hostname ipAddress).db.logs = s.db.logs ++
        [{ Username := username, Status := status, Timestamp := s.db.now,
           Hostname := hostname, IPAddress := ipAddress }]) := by
  have hlog : ∀ username status hostname ipAddress : String, s.db.execFault = none →
      (logEntry s username status hostname ipAddress).db.logs = s.db.logs ++
        [{ Username := username, Status := status, Timestamp := s.db.now,
           Hostname := hostname, IPAddress := ipAddress }] := by
    intro username status hostname ipAddress hf
    rw [logEntry_of_exec_ok s username status hostname ipAddress hf]
  refine ⟨?_, hlog⟩
  cases hg : getUser s (r.FormValue "username") with
  | error err =>
    refine ⟨"failed", Or.inr rfl, ?_, ?_⟩
    · rw [loginHandler_of_lookup_error fs s r err hm hg]
    · intro hf
      rw [loginHandler_of_lookup_error fs s r err hm hg]
      exact hlog _ _ _ _ hf
  | ok user =>
    by_cases hp : r.FormValue "password" = user.Password
    · refine ⟨"success", Or.inl rfl, ?_, ?_⟩
      · rw [loginHandler_of_match fs s r user hm hg hp]
      · intro hf
        rw [loginHandler_of_match fs s r user hm hg hp]
        exact hlog _ _ _ _ hf
    · refine ⟨"failed", Or.inr rfl, ?_, ?_⟩
      · rw [loginHandler_of_mismatch fs s r user hm hg hp]
      · intro hf
        rw [loginHandler_of_mismatch fs s r user hm hg hp]
        exact hlog _ _ _ _ hf

/-- Witness of C8: the attempt ("alice", "s3cret", "host1", "10.0.0.1") against
a store holding ("alice", "s3cret"). -/
theorem audit_record_holds_submitted_values_witness :
    (post "alice" "s3cret" "host1" "10.0.0.1").Method = "POST" ∧
    aliceWorld.db.users = [{ username := "alice", password := some "s3cret" }] ∧
    (loginHandler pages aliceWorld (post "alice" "s3cret" "host1" "10.0.0.1")).1.db.logs
      = [{ Username := "alice", Status := "success", Timestamp := aliceWorld.db.now,
           Hostname := "host1", IPAddress := "10.0.0.1" }] ∧
    (∃ status : String, (status = "success" ∨ status = "failed") ∧
      (loginHandler pages aliceWorld (post "alice" "s3cret" "host1" "10.0.0.1")).1
        = logEntry aliceWorld ((post "alice" "s3cret" "host1" "10.0.0.1").FormValue "username")
            status (post "alice" "s3cret" "host1" "10.0.0.1").Host
            (post "alice" "s3cret" "host1" "10.0.0.1").RemoteAddr ∧
      (aliceWorld.db.execFault = none →
        (loginHandler pages aliceWorld (post "alice" "s3cret" "host1" "10.0.0.1")).1.db.logs
          = aliceWorld.db.logs ++
            [{ Username := (post "alice" "s3cret" "host1" "10.0.0.1").FormValue "username",
               Status := status, Timestamp := aliceWorld.db.now,
               Hostname := (post "alice" "s3cret" "host1" "10.0.0.1").Host,
               IPAddress := (post "alice" "s3cret" "host1" "10.0.0.1").RemoteAddr }])) :=
  ⟨by decide, by decide, by decide,
    (audit_record_holds_submitted_values pages aliceWorld
      (post "alice" "s3cret" "host1" "10.0.0.1") (by decide)).1⟩

/-! ## Repeated attempts -/

/-- C9, as stated, fails in two places.  With the `INSERT` refused, two
attempts in a row leave table `logs` as it was: it does not grow by two.  And
the decision is not fixed by the rows of `users`, the username and the
password: with the same rows and the same inputs the attempt is accepted when
the `SELECT` works and rejected when it fails. -/
theorem two_attempts_may_append_nothing :
    (loginHandler pages
        (loginHandler pages noInsertWorld (post "alice" "s3cret" "host1" "10.0.0.1")).1
        (post "alice" "s3cret" "host1" "10.0.0.1")).1.db.logs = noInsertWorld.db.logs ∧
    noSelectWorld.db.users = aliceWorld.db.users ∧
    (loginHandler pages aliceWorld (post "alice" "s3cret" "host1" "10.0.0.1")).2 = accepted ∧
    (loginHandler pages noSelectWorld (post "alice" "s3cret" "host1" "10.0.0.1")).2 = rejected := by
  refine ⟨?_, ?_, ?_, ?_⟩ <;> decide

/-- C9, amended: two POST login attempts in a row with the same request, the
second at any later clock reading `t`, get the same reply; when the `INSERT` is
accepted they append two separate records (the table grows by two, nothing is
merged), and when it is refused they append none.  The reply of an attempt is
fixed by the credential store (the rows of `users` and whether the `SELECT`
fails), the username and the password: it is the same in any other world with
the same store, whatever its table `logs`, its printed lines, its clock, the
state of its `INSERT`, the templates or the caller host and address. -/
theorem repeated_attempts (fs : Files) (s : World) (r : Request) (t : Nat)
    (hm : r.Method = "POST") :
    (loginHandler fs ((loginHandler fs s r).1.atTime t) r).2 = (loginHandler fs s r).2 ∧
    (s.db.execFault = none → ∃ status : String,
      (loginHandler fs ((loginHandler fs s r).1.atTime t) r).1.db.logs = s.db.logs ++
        [{ Username := r.FormValue "username", Status := status, Timestamp := s.db.now,
           Hostname := r.Host, IPAddress := r.RemoteAddr },
         { Username := r.FormValue "username", Status := status, Timestamp := t,
           Hostname := r.Host, IPAddress := r.RemoteAddr }]) ∧
    (∀ msg, s.db.execFault = some msg →
      (loginHandler fs ((loginHandler fs s r).1.atTime t) r).1.db.logs = s.db.logs) ∧
    (∀ (fs' : Files) (s' : World) (r' : Request), r'.Method = "POST" →
      s'.db.users = s.db.users → s'.db.queryFault = s.db.queryFault →
      r'.FormValue "username" = r.FormValue "username" →
      r'.FormValue "password" = r.FormValue "password" →
      (loginHandler fs' s' r').2 = (loginHandler fs s r).2) := by
  obtain ⟨status, reply, hb⟩ := login_branch fs s r hm
  have h1 := hb s rfl
  have hfacts := logEntry_users s (r.FormValue "username") status r.Host r.RemoteAddr
  have hg2 : getUser ((logEntry s (r.FormValue "username") status r.Host r.RemoteAddr).atTime t)
      (r.FormValue "username") = getUser s (r.FormValue "username") :=
    getUser_congr s _ _ (by simpa [World.atTime] using hfacts.1)
      (by simpa [World.atTime] using hfacts.2.1)
  have h2 := hb _ hg2
  rw [h1]
  simp only []
  rw [h2]
  refine ⟨rfl, ?_, ?_, ?_⟩
  · intro hf
    refine ⟨status, ?_⟩
    have hf2 : ((logEntry s (r.FormValue "username") status r.Host r.RemoteAddr).atTime t).db.execFault
        = none := by
      simpa [World.atTime, hf] using hfacts.2.2.1
    rw [logEntry_of_exec_ok _ _ status _ _ hf2]
    simp [World.atTime, logEntry_of_exec_ok s _ status _ _ hf]
  · intro msg hf
    have hf2 : ((logEntry s (r.FormValue "username") status r.Host r.RemoteAddr).atTime t).db.execFault
        = some msg := by
      simpa [World.atTime, hf] using hfacts.2.2.1
    rw [logEntry_of_exec_fault _ _ status _ _ msg hf2]
    simp [World.atTime, logEntry_of_exec_fault s _ status _ _ msg hf]
  · intro fs' s' r' hm' hu hq hun hpw
    have := loginHandler_reply_congr fs fs' s s' r r' hm hm'
      (by rw [hun]; exact getUser_congr s s' _ hu hq) hpw
    rw [this, h1]

/-- Witness of C9 (amended): alice logs in twice, at clock readings 7 and 9. -/
theorem repeated_attempts_witness :
    (post "alice" "s3cret" "host1" "10.0.0.1").Method = "POST" ∧
    (loginHandler pages
        ((loginHandler pages aliceWorld (post "alice" "s3cret" "host1" "10.0.0.1")).1.atTime 9)
        (post "alice" "s3cret" "host1" "10.0.0.1")).1.db.logs
      = [{ Username := "alice", Status := "success", Timestamp := 7,
           Hostname := "host1", IPAddress := "10.0.0.1" },
         { Username := "alice", Status := "success", Timestamp := 9,
           Hostname := "host1", IPAddress := "10.0.0.1" }] ∧
    (loginHandler pages
        ((loginHandler pages aliceWorld (post "alice" "s3cret" "host1" "10.0.0.1")).1.atTime 9)
        (post "alice" "s3cret" "host1" "10.0.0.1")).2
      = (loginHandler pages aliceWorld (post "alice" "s3cret" "host1" "10.0.0.1")).2 :=
  ⟨by decide, by decide,
    (repeated_attempts pages aliceWorld (post "alice" "s3cret" "host1" "10.0.0.1") 9
      (by decide)).1⟩

/-! ## The dashboard -/

/-- C10: `dashboardHandler` renders dashboard.html with an output that is fixed
by the form value "command" alone ("cd", "ls" and "clear" give the strings of
`cd`, `ls` and `clear`, anything else "Unknown command").  It leaves the world
as it is and its reply is the same in every world, whatever the tables `users`
and `logs` hold; in particular it is the same before and after any login
attempt, accepted or not. -/
theorem dashboard_depends_on_command_only (fs : Files) (s s' : World) (r r' : Request)
    (hc : r'.FormValue "command" = r.FormValue "command") :
    (dashboardHandler fs s' r').2 = (dashboardHandler fs s r).2 ∧
    (dashboardHandler fs s r).1 = s ∧
    (∃ output : String,
      (dashboardHandler fs s r).2 = renderTemplate fs "dashboard.html" (some output) ∧
      (r.FormValue "command" = "cd" → output = cd) ∧
      (r.FormValue "command" = "ls" → output = ls) ∧
      (r.FormValue "command" = "clear" → output = clear) ∧
      (r.FormValue "command" ≠ "cd" → r.FormValue "command" ≠ "ls" →
        r.FormValue "command" ≠ "clear" → output = "Unknown command")) ∧
    (∀ login : Request,
      (dashboardHandler fs (loginHandler fs s login).1 r).2 = (dashboardHandler fs s r).2) := by
  refine ⟨?_, rfl, ?_, fun _ => rfl⟩
  · simp [dashboardHandler, hc]
  · refine ⟨_, rfl, ?_, ?_, ?_, ?_⟩
    · intro h
      simp [h]
    · intro h
      have : ("ls" : String) ≠ "cd" := by decide
      simp [h, this]
    · intro h
      have h1 : ("clear" : String) ≠ "cd" := by decide
      have h2 : ("clear" : String) ≠ "ls" := by decide
      simp [h, h1, h2]
    · intro h1 h2 h3
      simp [h1, h2, h3]

/-- Witness of C10: the command "ls", asked in a world where nobody has logged
in and the database is unreachable, and in the world after alice logged in. -/
theorem dashboard_depends_on_command_only_witness :
    ({ Method := "GET", Form := [("command", "ls")], Host := "host2", RemoteAddr := "10.0.0.9" }
        : Request).FormValue "command"
      = ({ Method := "POST", Form := [("command", "ls")], Host := "host1",
           RemoteAddr := "10.0.0.1" } : Request).FormValue "command" ∧
    (dashboardHandler pages downWorld
        { Method := "GET", Form := [("command", "ls")], Host := "host2",
          RemoteAddr := "10.0.0.9" }).2
      = (dashboardHandler pages
          (loginHandler pages aliceWorld (post "alice" "s3cret" "host1" "10.0.0.1")).1
          { Method := "POST", Form := [("command", "ls")], Host := "host1",
            RemoteAddr := "10.0.0.1" }).2 ∧
    (dashboardHandler pages downWorld
        { Method := "GET", Form := [("command", "ls")], Host := "host2",
          RemoteAddr := "10.0.0.9" }).2
      = [Reply.Write "<pre>This is the list of files: file1.txt, file2.txt, file3.txt</pre>"] :=
  ⟨by decide,
    (dashboard_depends_on_command_only pages
      (loginHandler pages aliceWorld (post "alice" "s3cret" "host1" "10.0.0.1")).1 downWorld
      { Method := "POST", Form := [("command", "ls")], Host := "host1", RemoteAddr := "10.0.0.1" }
      { Method := "GET", Form := [("command", "ls")], Host := "host2", RemoteAddr := "10.0.0.9" }
      (by decide)).1,
    by decide⟩

end GoAwsWeb
